import Mathlib

/-
Verification of the betting endpoint module of the betfair client library
(betfairlightweight/endpoints/betting.py).

The module consists of 24 closed string-valued vocabularies (Python classes
deriving from str and Enum) and a class Betting with 17 operation wrapper
methods, each of which collects its local parameters into a request mapping,
dispatches a fully-qualified method name to a request executor, and shapes
the response through a response processor.

Python enumerations are embedded as ordered association lists of
(declared name, assigned wire string) pairs, transcribed line by line from
the source.  JSON-like parameter values are embedded as the inductive type
Value below.  The collaborators that live outside this module
(clean_locals, to_camel_case, market_filter, time_range, request,
process_response) are modelled from the specification; their doc comments
say so explicitly.
-/

/-- A JSON-like parameter value, as carried in a request parameter mapping:
Python None, bool, int, str, list and dict values. -/
inductive Value where
  | null
  | bool (b : Bool)
  | int (n : Int)
  | str (s : String)
  | list (l : List Value)
  | dict (d : List (String × Value))
deriving Repr

/-- A Python dict of string keys, as produced by the filter builders. -/
abbrev Dict := List (String × Value)

/-- Members of the MarketProjection vocabulary: (declared name, wire value),
transcribed in source order. -/
def MarketProjection.members : List (String × String) :=
  [("COMPETITION", "COMPETITION"),
   ("EVENT", "EVENT"),
   ("EVENT_TYPE", "EVENT_TYPE"),
   ("MARKET_START_TIME", "MARKET_START_TIME"),
   ("MARKET_DESCRIPTION", "MARKET_DESCRIPTION"),
   ("RUNNER_DESCRIPTION", "RUNNER_DESCRIPTION"),
   ("RUNNER_METADATA", "RUNNER_METADATA")]

/-- Members of the PriceData vocabulary. -/
def PriceData.members : List (String × String) :=
  [("SP_AVAILABLE", "SP_AVAILABLE"),
   ("SP_TRADED", "SP_TRADED"),
   ("EX_BEST_OFFERS", "EX_BEST_OFFERS"),
   ("EX_ALL_OFFERS", "EX_ALL_OFFERS"),
   ("EX_TRADED", "EX_TRADED")]

/-- Members of the MatchProjection vocabulary. -/
def MatchProjection.members : List (String × String) :=
  [("NO_ROLLUP", "NO_ROLLUP"),
   ("ROLLED_UP_BY_PRICE", "ROLLED_UP_BY_PRICE"),
   ("ROLLED_UP_BY_AVG_PRICE", "ROLLED_UP_BY_AVG_PRICE")]

/-- Members of the OrderProjection vocabulary. -/
def OrderProjection.members : List (String × String) :=
  [("ALL", "ALL"),
   ("EXECUTABLE", "EXECUTABLE"),
   ("EXECUTION_COMPLETE", "EXECUTION_COMPLETE")]

/-- Members of the MarketStatus vocabulary. -/
def MarketStatus.members : List (String × String) :=
  [("INACTIVE", "INACTIVE"),
   ("OPEN", "OPEN"),
   ("SUSPENDED", "SUSPENDED"),
   ("CLOSED", "CLOSED")]

/-- Members of the RunnerStatus vocabulary. -/
def RunnerStatus.members : List (String × String) :=
  [("ACTIVE", "ACTIVE"),
   ("WINNER", "WINNER"),
   ("LOSER", "LOSER"),
   ("PLACED", "PLACED"),
   ("REMOVED_VACANT", "REMOVED_VACANT"),
   ("REMOVED", "REMOVED"),
   ("HIDDEN", "HIDDEN")]

/-- Members of the TimeGranularity vocabulary. -/
def TimeGranularity.members : List (String × String) :=
  [("DAYS", "DAYS"),
   ("HOURS", "HOURS"),
   ("MINUTES", "MINUTES")]

/-- Members of the Side vocabulary. -/
def Side.members : List (String × String) :=
  [("BACK", "BACK"),
   ("LAY", "LAY")]

/-- Members of the OrderStatus vocabulary. -/
def OrderStatus.members : List (String × String) :=
  [("PENDING", "PENDING"),
   ("EXECUTION_COMPLETE", "EXECUTION_COMPLETE"),
   ("EXECUTABLE", "EXECUTABLE"),
   ("EXPIRED", "EXPIRED")]

/-- Members of the OrderBy vocabulary. -/
def OrderBy.members : List (String × String) :=
  [("BY_BET", "BY_BET"),
   ("BY_MARKET", "BY_MARKET"),
   ("BY_MATCH_TIME", "BY_MATCH_TIME"),
   ("BY_PLACE_TIME", "BY_PLACE_TIME"),
   ("BY_SETTLED_TIME", "BY_SETTLED_TIME"),
   ("BY_VOID_TIME", "BY_VOID_TIME")]

/-- Members of the SortDir vocabulary. -/
def SortDir.members : List (String × String) :=
  [("EARLIEST_TO_LATEST", "EARLIEST_TO_LATEST"),
   ("LATEST_TO_EARLIEST", "LATEST_TO_EARLIEST")]

/-- Members of the OrderType vocabulary. -/
def OrderType.members : List (String × String) :=
  [("LIMIT", "LIMIT"),
   ("LIMIT_ON_CLOSE", "LIMIT_ON_CLOSE"),
   ("MARKET_ON_CLOSE", "MARKET_ON_CLOSE")]

/-- Members of the MarketSort vocabulary. -/
def MarketSort.members : List (String × String) :=
  [("MINIMUM_TRADED", "MINIMUM_TRADED"),
   ("MAXIMUM_TRADED", "MAXIMUM_TRADED"),
   ("MINIMUM_AVAILABLE", "MINIMUM_AVAILABLE"),
   ("MAXIMUM_AVAILABLE", "MAXIMUM_AVAILABLE"),
   ("FIRST_TO_START", "FIRST_TO_START"),
   ("LAST_TO_START", "LAST_TO_START")]

/-- Members of the MarketBettingType vocabulary. -/
def MarketBettingType.members : List (String × String) :=
  [("ODDS", "ODDS"),
   ("LINE", "LINE"),
   ("RANGE", "RANGE"),
   ("ASIAN_HANDICAP_DOUBLE_LINE", "ASIAN_HANDICAP_DOUBLE_LINE"),
   ("ASIAN_HANDICAP_SINGLE_LINE", "ASIAN_HANDICAP_SINGLE_LINE"),
   ("FIXED_ODDS", "FIXED_ODDS")]

/-- Members of the ExecutionReportStatus vocabulary. -/
def ExecutionReportStatus.members : List (String × String) :=
  [("SUCCESS", "SUCCESS"),
   ("FAILURE", "FAILURE"),
   ("PROCESSED_WITH_ERRORS", "PROCESSED_WITH_ERRORS"),
   ("TIMEOUT", "TIMEOUT")]

/-- Members of the ExecutionReportErrorCode vocabulary. -/
def ExecutionReportErrorCode.members : List (String × String) :=
  [("ERROR_IN_MATCHER", "ERROR_IN_MATCHER"),
   ("PROCESSED_WITH_ERRORS", "PROCESSED_WITH_ERRORS"),
   ("BET_ACTION_ERROR", "BET_ACTION_ERROR"),
   ("INVALID_ACCOUNT_STATE", "INVALID_ACCOUNT_STATE"),
   ("INVALID_WALLET_STATUS", "INVALID_WALLET_STATUS"),
   ("INSUFFICIENT_FUNDS", "INSUFFICIENT_FUNDS"),
   ("LOSS_LIMIT_EXCEEDED", "LOSS_LIMIT_EXCEEDED"),
   ("MARKET_SUSPENDED", "MARKET_SUSPENDED"),
   ("MARKET_NOT_OPEN_FOR_BETTING", "MARKET_NOT_OPEN_FOR_BETTING"),
   ("DUPLICATE_TRANSACTION", "DUPLICATE_TRANSACTION"),
   ("INVALID_ORDER", "INVALID_ORDER"),
   ("INVALID_MARKET_ID", "INVALID_MARKET_ID"),
   ("PERMISSION_DENIED", "PERMISSION_DENIED"),
   ("DUPLICATE_BETIDS", "DUPLICATE_BETIDS"),
   ("NO_ACTION_REQUIRED", "NO_ACTION_REQUIRED"),
   ("SERVICE_UNAVAILABLE", "SERVICE_UNAVAILABLE"),
   ("REJECTED_BY_REGULATOR", "REJECTED_BY_REGULATOR"),
   ("NO_CHASING", "NO_CHASING"),
   ("REGULATOR_IS_NOT_AVAILABLE", "REGULATOR_IS_NOT_AVAILABLE"),
   ("TOO_MANY_INSTRUCTIONS", "TOO_MANY_INSTRUCTIONS"),
   ("INVALID_MARKET_VERSION", "INVALID_MARKET_VERSION"),
   ("INVALID_PROFIT_RATIO", "INVALID_PROFIT_RATIO")]

/-- Members of the PersistenceType vocabulary. -/
def PersistenceType.members : List (String × String) :=
  [("LAPSE", "LAPSE"),
   ("PERSIST", "PERSIST"),
   ("MARKET_ON_CLOSE", "MARKET_ON_CLOSE")]

/-- Members of the InstructionReportStatus vocabulary. -/
def InstructionReportStatus.members : List (String × String) :=
  [("SUCCESS", "SUCCESS"),
   ("FAILURE", "FAILURE"),
   ("TIMEOUT", "TIMEOUT")]

/-- Members of the InstructionReportErrorCode vocabulary. -/
def InstructionReportErrorCode.members : List (String × String) :=
  [("INVALID_BET_SIZE", "INVALID_BET_SIZE"),
   ("INVALID_RUNNER", "INVALID_RUNNER"),
   ("BET_TAKEN_OR_LAPSED", "BET_TAKEN_OR_LAPSED"),
   ("BET_IN_PROGRESS", "BET_IN_PROGRESS"),
   ("RUNNER_REMOVED", "RUNNER_REMOVED"),
   ("MARKET_NOT_OPEN_FOR_BETTING", "MARKET_NOT_OPEN_FOR_BETTING"),
   ("LOSS_LIMIT_EXCEEDED", "LOSS_LIMIT_EXCEEDED"),
   ("MARKET_NOT_OPEN_FOR_BSP_BETTING", "MARKET_NOT_OPEN_FOR_BSP_BETTING"),
   ("INVALID_PRICE_EDIT", "INVALID_PRICE_EDIT"),
   ("INVALID_ODDS", "INVALID_ODDS"),
   ("INSUFFICIENT_FUNDS", "INSUFFICIENT_FUNDS"),
   ("INVALID_PERSISTENCE_TYPE", "INVALID_PERSISTENCE_TYPE"),
   ("ERROR_IN_MATCHER", "ERROR_IN_MATCHER"),
   ("INVALID_BACK_LAY_COMBINATION", "INVALID_BACK_LAY_COMBINATION"),
   ("ERROR_IN_ORDER", "ERROR_IN_ORDER"),
   ("INVALID_BID_TYPE", "INVALID_BID_TYPE"),
   ("INVALID_BET_ID", "INVALID_BET_ID"),
   ("CANCELLED_NOT_PLACED", "CANCELLED_NOT_PLACED"),
   ("RELATED_ACTION_FAILED", "RELATED_ACTION_FAILED"),
   ("NO_ACTION_REQUIRED", "NO_ACTION_REQUIRED"),
   ("TIME_IN_FORCE_CONFLICT", "TIME_IN_FORCE_CONFLICT"),
   ("UNEXPECTED_PERSISTENCE_TYPE", "UNEXPECTED_PERSISTENCE_TYPE"),
   ("INVALID_ORDER_TYPE", "INVALID_ORDER_TYPE"),
   ("UNEXPECTED_MIN_FILL_SIZE", "UNEXPECTED_MIN_FILL_SIZE"),
   ("INVALID_CUSTOMER_ORDER_REF", "INVALID_CUSTOMER_ORDER_REF"),
   ("INVALID_MIN_FILL_SIZE", "INVALID_MIN_FILL_SIZE"),
   ("BET_LAPSED_PRICE_IMPROVEMENT_TOO_LARGE", "BET_LAPSED_PRICE_IMPROVEMENT_TOO_LARGE")]

/-- Members of the GroupBy vocabulary. -/
def GroupBy.members : List (String × String) :=
  [("EVENT_TYPE", "EVENT_TYPE"),
   ("EVENT", "EVENT"),
   ("MARKET", "MARKET"),
   ("SIDE", "SIDE"),
   ("BET", "BET")]

/-- Members of the BetStatus vocabulary. -/
def BetStatus.members : List (String × String) :=
  [("SETTLED", "SETTLED"),
   ("VOIDED", "VOIDED"),
   ("LAPSED", "LAPSED"),
   ("CANCELLED", "CANCELLED")]

/-- Members of the TimeInForce vocabulary. -/
def TimeInForce.members : List (String × String) :=
  [("FILL_OR_KILL", "FILL_OR_KILL")]

/-- Members of the BetTargetType vocabulary. -/
def BetTargetType.members : List (String × String) :=
  [("BACKERS_PROFIT", "BACKERS_PROFIT"),
   ("PAYOUT", "PAYOUT")]

/-- Members of the PriceLadderType vocabulary. -/
def PriceLadderType.members : List (String × String) :=
  [("CLASSIC", "CLASSIC"),
   ("FINEST", "FINEST"),
   ("LINE_RANGE", "LINE_RANGE")]

/-- All vocabulary enumerations defined in the module, in source order,
each paired with its ordered member list. -/
def vocabularies : List (String × List (String × String)) :=
  [("MarketProjection", MarketProjection.members),
   ("PriceData", PriceData.members),
   ("MatchProjection", MatchProjection.members),
   ("OrderProjection", OrderProjection.members),
   ("MarketStatus", MarketStatus.members),
   ("RunnerStatus", RunnerStatus.members),
   ("TimeGranularity", TimeGranularity.members),
   ("Side", Side.members),
   ("OrderStatus", OrderStatus.members),
   ("OrderBy", OrderBy.members),
   ("SortDir", SortDir.members),
   ("OrderType", OrderType.members),
   ("MarketSort", MarketSort.members),
   ("MarketBettingType", MarketBettingType.members),
   ("ExecutionReportStatus", ExecutionReportStatus.members),
   ("ExecutionReportErrorCode", ExecutionReportErrorCode.members),
   ("PersistenceType", PersistenceType.members),
   ("InstructionReportStatus", InstructionReportStatus.members),
   ("InstructionReportErrorCode", InstructionReportErrorCode.members),
   ("GroupBy", GroupBy.members),
   ("BetStatus", BetStatus.members),
   ("TimeInForce", TimeInForce.members),
   ("BetTargetType", BetTargetType.members),
   ("PriceLadderType", PriceLadderType.members)]

/-- Upper-case an ASCII letter, leaving any other character unchanged. -/
def upper_char (c : Char) : Char :=
  (([('a', 'A'), ('b', 'B'), ('c', 'C'), ('d', 'D'), ('e', 'E'), ('f', 'F'),
     ('g', 'G'), ('h', 'H'), ('i', 'I'), ('j', 'J'), ('k', 'K'), ('l', 'L'),
     ('m', 'M'), ('n', 'N'), ('o', 'O'), ('p', 'P'), ('q', 'Q'), ('r', 'R'),
     ('s', 'S'), ('t', 'T'), ('u', 'U'), ('v', 'V'), ('w', 'W'), ('x', 'X'),
     ('y', 'Y'), ('z', 'Z')].lookup c).getD c)

/-- Split a character list at underscores; the underscores are dropped and
an empty component is kept for a leading, trailing or doubled underscore. -/
def split_underscore : List Char → List (List Char)
  | [] => [[]]
  | c :: cs =>
    match split_underscore cs with
    | [] => [[]]
    | x :: xs => if c = '_' then [] :: x :: xs else (c :: x) :: xs

/-- Capitalise the first character of a name component. -/
def capitalize_component : List Char → List Char
  | [] => []
  | c :: cs => upper_char c :: cs

/-- Modelled from the spec: the snake-case to camel-case key conversion
applied by the request-construction helper (utils.to_camel_case, not part
of this module).  Field names in the transmitted mapping are the remote
API's camel-case names: the name is split at underscores, the first
component is kept and every later component is capitalised. -/
def to_camel_case (s : String) : String :=
  match split_underscore s.data with
  | [] => ""
  | c :: cs => String.mk (c ++ (cs.map capitalize_component).flatten)

/-- Modelled from the spec: the request-construction helper
(utils.clean_locals, not part of this module).  It builds a parameter
mapping containing exactly the non-transport parameters of the operation:
the receiver, the session handle and the raw/typed-result selector are
excluded, parameters whose value is unset (None) are omitted, and the
remaining keys are converted to the remote API's camel-case field names. -/
def clean_locals : List (String × Option Value) → List (String × Value)
  | [] => []
  | (k, v) :: rest =>
    if k = "self" ∨ k = "session" ∨ k = "lightweight" then clean_locals rest
    else
      match v with
      | none => clean_locals rest
      | some x => (to_camel_case k, x) :: clean_locals rest

/-- Modelled from the spec: the market-filter builder (filters.market_filter,
not part of this module), which supplies a structurally-valid default
filter shape when the caller omits the filter; with no arguments every
filter field is unset and therefore omitted, giving the empty mapping. -/
def market_filter (_ : Unit) : Dict := []

/-- Modelled from the spec: the time-range builder (filters.time_range, not
part of this module), which supplies a structurally-valid default date-range
shape with an unset lower and upper bound when the caller omits it. -/
def time_range (_ : Unit) : Dict :=
  [("from", Value.null), ("to", Value.null)]

/-- The expected typed result class an operation passes to the response
processor, one constructor per resources class used in the module. -/
inductive ResourceType where
  | EventTypeResult
  | CompetitionResult
  | TimeRangeResult
  | EventResult
  | MarketTypeResult
  | CountryResult
  | VenueResult
  | MarketCatalogue
  | MarketBook
  | CurrentOrders
  | ClearedOrders
  | MarketProfitLoss
  | PlaceOrders
  | CancelOrders
  | UpdateOrders
  | ReplaceOrders
deriving DecidableEq, Repr

/-- The operation call an operation wrapper hands to its collaborators: the
fully-qualified method name and parameter mapping submitted to the request
executor, together with the expected result class and the raw/typed-result
selector handed to the response processor. -/
structure Request where
  method : String
  params : List (String × Value)
  resource : ResourceType
  lightweight : Bool
deriving Repr

/-- Betting.URI, the fixed namespace prefix of every dispatched method name. -/
def URI : String := "SportsAPING/v1.0/"

/-- Embedding of Betting.list_event_types: collects its locals through
clean_locals and dispatches listEventTypes expecting EventTypeResult. -/
def list_event_types (self : Value)
    (filter : Value := Value.dict (market_filter ()))
    (locale : Option Value := none)
    (session : Option Value := none)
    (lightweight : Bool := false) : Request :=
  { method := URI ++ "listEventTypes"
    params := clean_locals
      [("self", some self), ("filter", some filter), ("locale", locale),
       ("session", session), ("lightweight", some (Value.bool lightweight))]
    resource := ResourceType.EventTypeResult
    lightweight := lightweight }

/-- Embedding of Betting.list_competitions. -/
def list_competitions (self : Value)
    (filter : Value := Value.dict (market_filter ()))
    (locale : Option Value := none)
    (session : Option Value := none)
    (lightweight : Bool := false) : Request :=
  { method := URI ++ "listCompetitions"
    params := clean_locals
      [("self", some self), ("filter", some filter), ("locale", locale),
       ("session", session), ("lightweight", some (Value.bool lightweight))]
    resource := ResourceType.CompetitionResult
    lightweight := lightweight }

/-- Embedding of Betting.list_time_ranges: the granularity parameter has the
documented default DAYS. -/
def list_time_ranges (self : Value)
    (filter : Value := Value.dict (market_filter ()))
    (granularity : Value := Value.str "DAYS")
    (session : Option Value := none)
    (lightweight : Bool := false) : Request :=
  { method := URI ++ "listTimeRanges"
    params := clean_locals
      [("self", some self), ("filter", some filter),
       ("granularity", some granularity),
       ("session", session), ("lightweight", some (Value.bool lightweight))]
    resource := ResourceType.TimeRangeResult
    lightweight := lightweight }

/-- Embedding of Betting.list_events. -/
def list_events (self : Value)
    (filter : Value := Value.dict (market_filter ()))
    (locale : Option Value := none)
    (session : Option Value := none)
    (lightweight : Bool := false) : Request :=
  { method := URI ++ "listEvents"
    params := clean_locals
      [("self", some self), ("filter", some filter), ("locale", locale),
       ("session", session), ("lightweight", some (Value.bool lightweight))]
    resource := ResourceType.EventResult
    lightweight := lightweight }

/-- Embedding of Betting.list_market_types. -/
def list_market_types (self : Value)
    (filter : Value := Value.dict (market_filter ()))
    (locale : Option Value := none)
    (session : Option Value := none)
    (lightweight : Bool := false) : Request :=
  { method := URI ++ "listMarketTypes"
    params := clean_locals
      [("self", some self), ("filter", some filter), ("locale", locale),
       ("session", session), ("lightweight", some (Value.bool lightweight))]
    resource := ResourceType.MarketTypeResult
    lightweight := lightweight }

/-- Embedding of Betting.list_countries. -/
def list_countries (self : Value)
    (filter : Value := Value.dict (market_filter ()))
    (locale : Option Value := none)
    (session : Option Value := none)
    (lightweight : Bool := false) : Request :=
  { method := URI ++ "listCountries"
    params := clean_locals
      [("self", some self), ("filter", some filter), ("locale", locale),
       ("session", session), ("lightweight", some (Value.bool lightweight))]
    resource := ResourceType.CountryResult
    lightweight := lightweight }

/-- Embedding of Betting.list_venues. -/
def list_venues (self : Value)
    (filter : Value := Value.dict (market_filter ()))
    (locale : Option Value := none)
    (session : Option Value := none)
    (lightweight : Bool := false) : Request :=
  { method := URI ++ "listVenues"
    params := clean_locals
      [("self", some self), ("filter", some filter), ("locale", locale),
       ("session", session), ("lightweight", some (Value.bool lightweight))]
    resource := ResourceType.VenueResult
    lightweight := lightweight }

/-- Embedding of Betting.list_market_catalogue: the max_results parameter
has the documented default 1. -/
def list_market_catalogue (self : Value)
    (filter : Value := Value.dict (market_filter ()))
    (market_projection : Option Value := none)
    (sort : Option Value := none)
    (max_results : Value := Value.int 1)
    (locale : Option Value := none)
    (session : Option Value := none)
    (lightweight : Bool := false) : Request :=
  { method := URI ++ "listMarketCatalogue"
    params := clean_locals
      [("self", some self), ("filter", some filter),
       ("market_projection", market_projection), ("sort", sort),
       ("max_results", some max_results), ("locale", locale),
       ("session", session), ("lightweight", some (Value.bool lightweight))]
    resource := ResourceType.MarketCatalogue
    lightweight := lightweight }

/-- Embedding of Betting.list_market_book: the caller-facing market_ids
parameter is a required argument. -/
def list_market_book (self : Value)
    (market_ids : Value)
    (price_projection : Option Value := none)
    (order_projection : Option Value := none)
    (match_projection : Option Value := none)
    (include_overall_position : Option Value := none)
    (partition_matched_by_strategy_ref : Option Value := none)
    (customer_strategy_refs : Option Value := none)
    (currency_code : Option Value := none)
    (matched_since : Option Value := none)
    (bet_ids : Option Value := none)
    (locale : Option Value := none)
    (session : Option Value := none)
    (lightweight : Bool := false) : Request :=
  { method := URI ++ "listMarketBook"
    params := clean_locals
      [("self", some self), ("market_ids", some market_ids),
       ("price_projection", price_projection),
       ("order_projection", order_projection),
       ("match_projection", match_projection),
       ("include_overall_position", include_overall_position),
       ("partition_matched_by_strategy_ref", partition_matched_by_strategy_ref),
       ("customer_strategy_refs", customer_strategy_refs),
       ("currency_code", currency_code),
       ("matched_since", matched_since), ("bet_ids", bet_ids),
       ("locale", locale),
       ("session", session), ("lightweight", some (Value.bool lightweight))]
    resource := ResourceType.MarketBook
    lightweight := lightweight }

/-- Embedding of Betting.list_runner_book: passes resources.MarketBook as
the expected result class, the same class used by list_market_book. -/
def list_runner_book (self : Value)
    (market_id : Value)
    (selection_id : Value)
    (handicap : Option Value := none)
    (price_projection : Option Value := none)
    (order_projection : Option Value := none)
    (match_projection : Option Value := none)
    (include_overall_position : Option Value := none)
    (partition_matched_by_strategy_ref : Option Value := none)
    (customer_strategy_refs : Option Value := none)
    (currency_code : Option Value := none)
    (matched_since : Option Value := none)
    (bet_ids : Option Value := none)
    (locale : Option Value := none)
    (session : Option Value := none)
    (lightweight : Bool := false) : Request :=
  { method := URI ++ "listRunnerBook"
    params := clean_locals
      [("self", some self), ("market_id", some market_id),
       ("selection_id", some selection_id), ("handicap", handicap),
       ("price_projection", price_projection),
       ("order_projection", order_projection),
       ("match_projection", match_projection),
       ("include_overall_position", include_overall_position),
       ("partition_matched_by_strategy_ref", partition_matched_by_strategy_ref),
       ("customer_strategy_refs", customer_strategy_refs),
       ("currency_code", currency_code),
       ("matched_since", matched_since), ("bet_ids", bet_ids),
       ("locale", locale),
       ("session", session), ("lightweight", some (Value.bool lightweight))]
    resource := ResourceType.MarketBook
    lightweight := lightweight }

/-- Embedding of Betting.list_current_orders: the date_range parameter
defaults to the time-range builder's shape. -/
def list_current_orders (self : Value)
    (bet_ids : Option Value := none)
    (market_ids : Option Value := none)
    (order_projection : Option Value := none)
    (customer_order_refs : Option Value := none)
    (customer_strategy_refs : Option Value := none)
    (date_range : Value := Value.dict (time_range ()))
    (order_by : Option Value := none)
    (sort_dir : Option Value := none)
    (from_record : Option Value := none)
    (record_count : Option Value := none)
    (include_item_description : Option Value := none)
    (session : Option Value := none)
    (lightweight : Bool := false) : Request :=
  { method := URI ++ "listCurrentOrders"
    params := clean_locals
      [("self", some self), ("bet_ids", bet_ids), ("market_ids", market_ids),
       ("order_projection", order_projection),
       ("customer_order_refs", customer_order_refs),
       ("customer_strategy_refs", customer_strategy_refs),
       ("date_range", some date_range), ("order_by", order_by),
       ("sort_dir", sort_dir), ("from_record", from_record),
       ("record_count", record_count),
       ("include_item_description", include_item_description),
       ("session", session), ("lightweight", some (Value.bool lightweight))]
    resource := ResourceType.CurrentOrders
    lightweight := lightweight }

/-- Embedding of Betting.list_cleared_orders: the bet_status parameter has
the documented default SETTLED and settled_date_range defaults to the
time-range builder's shape. -/
def list_cleared_orders (self : Value)
    (bet_status : Value := Value.str "SETTLED")
    (event_type_ids : Option Value := none)
    (event_ids : Option Value := none)
    (market_ids : Option Value := none)
    (runner_ids : Option Value := none)
    (bet_ids : Option Value := none)
    (customer_order_refs : Option Value := none)
    (customer_strategy_refs : Option Value := none)
    (side : Option Value := none)
    (settled_date_range : Value := Value.dict (time_range ()))
    (group_by : Option Value := none)
    (include_item_description : Option Value := none)
    (locale : Option Value := none)
    (from_record : Option Value := none)
    (record_count : Option Value := none)
    (session : Option Value := none)
    (lightweight : Bool := false) : Request :=
  { method := URI ++ "listClearedOrders"
    params := clean_locals
      [("self", some self), ("bet_status", some bet_status),
       ("event_type_ids", event_type_ids), ("event_ids", event_ids),
       ("market_ids", market_ids), ("runner_ids", runner_ids),
       ("bet_ids", bet_ids), ("customer_order_refs", customer_order_refs),
       ("customer_strategy_refs", customer_strategy_refs), ("side", side),
       ("settled_date_range", some settled_date_range),
       ("group_by", group_by),
       ("include_item_description", include_item_description),
       ("locale", locale), ("from_record", from_record),
       ("record_count", record_count),
       ("session", session), ("lightweight", some (Value.bool lightweight))]
    resource := ResourceType.ClearedOrders
    lightweight := lightweight }

/-- Embedding of Betting.list_market_profit_and_loss. -/
def list_market_profit_and_loss (self : Value)
    (market_ids : Value)
    (include_settled_bets : Option Value := none)
    (include_bsp_bets : Option Value := none)
    (net_of_commission : Option Value := none)
    (session : Option Value := none)
    (lightweight : Bool := false) : Request :=
  { method := URI ++ "listMarketProfitAndLoss"
    params := clean_locals
      [("self", some self), ("market_ids", some market_ids),
       ("include_settled_bets", include_settled_bets),
       ("include_bsp_bets", include_bsp_bets),
       ("net_of_commission", net_of_commission),
       ("session", session), ("lightweight", some (Value.bool lightweight))]
    resource := ResourceType.MarketProfitLoss
    lightweight := lightweight }

/-- Embedding of Betting.place_orders. -/
def place_orders (self : Value)
    (market_id : Value)
    (instructions : Value)
    (customer_ref : Option Value := none)
    (market_version : Option Value := none)
    (customer_strategy_ref : Option Value := none)
    (async_ : Option Value := none)
    (session : Option Value := none)
    (lightweight : Bool := false) : Request :=
  { method := URI ++ "placeOrders"
    params := clean_locals
      [("self", some self), ("market_id", some market_id),
       ("instructions", some instructions), ("customer_ref", customer_ref),
       ("market_version", market_version),
       ("customer_strategy_ref", customer_strategy_ref),
       ("async_", async_),
       ("session", session), ("lightweight", some (Value.bool lightweight))]
    resource := ResourceType.PlaceOrders
    lightweight := lightweight }

/-- Embedding of Betting.cancel_orders: every wire-relevant parameter is
optional and unset by default, so invoking it bare transmits an empty
parameter mapping. -/
def cancel_orders (self : Value)
    (market_id : Option Value := none)
    (instructions : Option Value := none)
    (customer_ref : Option Value := none)
    (session : Option Value := none)
    (lightweight : Bool := false) : Request :=
  { method := URI ++ "cancelOrders"
    params := clean_locals
      [("self", some self), ("market_id", market_id),
       ("instructions", instructions), ("customer_ref", customer_ref),
       ("session", session), ("lightweight", some (Value.bool lightweight))]
    resource := ResourceType.CancelOrders
    lightweight := lightweight }

/-- Embedding of Betting.update_orders. -/
def update_orders (self : Value)
    (market_id : Option Value := none)
    (instructions : Option Value := none)
    (customer_ref : Option Value := none)
    (session : Option Value := none)
    (lightweight : Bool := false) : Request :=
  { method := URI ++ "updateOrders"
    params := clean_locals
      [("self", some self), ("market_id", market_id),
       ("instructions", instructions), ("customer_ref", customer_ref),
       ("session", session), ("lightweight", some (Value.bool lightweight))]
    resource := ResourceType.UpdateOrders
    lightweight := lightweight }

/-- Embedding of Betting.replace_orders. -/
def replace_orders (self : Value)
    (market_id : Value)
    (instructions : Value)
    (customer_ref : Option Value := none)
    (market_version : Option Value := none)
    (async_ : Option Value := none)
    (session : Option Value := none)
    (lightweight : Bool := false) : Request :=
  { method := URI ++ "replaceOrders"
    params := clean_locals
      [("self", some self), ("market_id", some market_id),
       ("instructions", some instructions), ("customer_ref", customer_ref),
       ("market_version", market_version),
       ("async_", async_),
       ("session", session), ("lightweight", some (Value.bool lightweight))]
    resource := ResourceType.ReplaceOrders
    lightweight := lightweight }

/-- The operation wrapper methods defined on the Betting class, in source
order. -/
def betting_operations : List String :=
  ["list_event_types", "list_competitions", "list_time_ranges",
   "list_events", "list_market_types", "list_countries", "list_venues",
   "list_market_catalogue", "list_market_book", "list_runner_book",
   "list_current_orders", "list_cleared_orders",
   "list_market_profit_and_loss", "place_orders", "cancel_orders",
   "update_orders", "replace_orders"]

/-- A parsed JSON body as returned by the request executor. -/
inductive Json where
  | null
  | bool (b : Bool)
  | num (n : Int)
  | str (s : String)
  | arr (elems : List Json)
  | obj (fields : List (String × Json))
deriving Repr

/-- A typed result instance built by the response processor from one JSON
object, carrying the expected result class, the object itself and the
call's elapsed time (the elapsed duration is abstracted as a Nat token;
only its identity matters here). -/
structure Resource where
  resource : ResourceType
  data : Json
  elapsed : Nat
deriving Repr

/-- The output of the response processor: either the parsed JSON unchanged
(raw mode) or typed instance(s) matching the shape of the JSON. -/
inductive Processed where
  | raw (j : Json)
  | one (r : Resource)
  | many (rs : List Resource)
deriving Repr

/-- Modelled from the spec: the response processor (process_response of the
base endpoint, not part of this module).  If the raw-output selector is
set it returns the parsed JSON unchanged; otherwise it constructs one
typed instance of the expected result class for a single JSON object and
one instance per element for a JSON array, each instance receiving the
elapsed duration as metadata. -/
def process_response (response_json : Json) (resource : ResourceType)
    (elapsed_time : Nat) (lightweight : Bool) : Processed :=
  if lightweight then Processed.raw response_json
  else
    match response_json with
    | Json.arr xs =>
        Processed.many (xs.map fun x =>
          { resource := resource, data := x, elapsed := elapsed_time })
    | j => Processed.one { resource := resource, data := j, elapsed := elapsed_time }

/-- Embedding of the shared body of every operation wrapper of the Betting
class: the fully-qualified method name and parameter mapping are submitted
to the request executor exactly once, and the parsed body, expected result
class, elapsed time and selector are handed to the response processor.
Both collaborators are fallible; the wrapper contains no handler, so any
failure either raises becomes the wrapper's own outcome unchanged. -/
def run_op (req : Request)
    (request : String → List (String × Value) → Except String (Json × Nat))
    (process : Json → ResourceType → Nat → Bool → Except String Processed) :
    Except String Processed :=
  match request req.method req.params with
  | Except.error e => Except.error e
  | Except.ok (response_json, elapsed_time) =>
      process response_json req.resource elapsed_time req.lightweight

/-- A store of mutable dict objects; an address is an index into the store.
This models Python object identity for the default dicts that Python
evaluates once when the class body is executed. -/
structure Heap where
  cells : List Dict
deriving Repr

/-- Read the dict at an address. -/
def Heap.get (h : Heap) (a : Nat) : Dict := h.cells.getD a []

/-- Mutate the dict at an address in place. -/
def Heap.set (h : Heap) (a : Nat) (d : Dict) : Heap := ⟨h.cells.set a d⟩

/-- The default expressions of the Betting class body that call a builder,
evaluated once each at class-definition time, in source order: one
market_filter() call for the defaulted filter parameter of each of the
eight listing operations, then one time_range() call each for the
date_range parameter of list_current_orders and the settled_date_range
parameter of list_cleared_orders. -/
def class_defaults : List Dict :=
  [market_filter (), market_filter (), market_filter (), market_filter (),
   market_filter (), market_filter (), market_filter (), market_filter (),
   time_range (), time_range ()]

/-- The addresses of the default dict objects owned by the Betting class,
one per defaulted builder-call parameter, fixed when the class is defined. -/
structure BettingDefs where
  list_event_types_filter : Nat
  list_competitions_filter : Nat
  list_time_ranges_filter : Nat
  list_events_filter : Nat
  list_market_types_filter : Nat
  list_countries_filter : Nat
  list_venues_filter : Nat
  list_market_catalogue_filter : Nat
  list_current_orders_date_range : Nat
  list_cleared_orders_settled_date_range : Nat
deriving Repr

/-- Execution of the Betting class body: each defaulted builder call is
evaluated exactly once, its result is allocated as a fresh dict object,
and the address is stored with the method; invocations never re-evaluate
the builders. -/
def define_Betting (h : Heap) : Heap × BettingDefs :=
  (⟨h.cells ++ class_defaults⟩,
   { list_event_types_filter := h.cells.length,
     list_competitions_filter := h.cells.length + 1,
     list_time_ranges_filter := h.cells.length + 2,
     list_events_filter := h.cells.length + 3,
     list_market_types_filter := h.cells.length + 4,
     list_countries_filter := h.cells.length + 5,
     list_venues_filter := h.cells.length + 6,
     list_market_catalogue_filter := h.cells.length + 7,
     list_current_orders_date_range := h.cells.length + 8,
     list_cleared_orders_settled_date_range := h.cells.length + 9 })

/-- The heap after the Betting class body has run in heap h. -/
def betting_heap (h : Heap) : Heap := (define_Betting h).1

/-- The default-object addresses after the Betting class body has run in
heap h. -/
def betting_defs (h : Heap) : BettingDefs := (define_Betting h).2

/-- Invocation of list_event_types under the shared-default-object model: a
caller either passes the address of a filter dict or omits the parameter,
in which case the single address fixed at class-definition time is used;
the transmitted dict is read from the heap, which the invocation leaves
unchanged. -/
def list_event_types_h (h : Heap) (defs : BettingDefs) (self : Value)
    (filter : Option Nat := none)
    (locale : Option Value := none)
    (session : Option Value := none)
    (lightweight : Bool := false) : Request × Heap :=
  (list_event_types self
     (Value.dict (h.get (filter.getD defs.list_event_types_filter)))
     locale session lightweight, h)

/-- Invocation of list_competitions under the shared-default-object model. -/
def list_competitions_h (h : Heap) (defs : BettingDefs) (self : Value)
    (filter : Option Nat := none)
    (locale : Option Value := none)
    (session : Option Value := none)
    (lightweight : Bool := false) : Request × Heap :=
  (list_competitions self
     (Value.dict (h.get (filter.getD defs.list_competitions_filter)))
     locale session lightweight, h)

/-- Invocation of list_time_ranges under the shared-default-object model. -/
def list_time_ranges_h (h : Heap) (defs : BettingDefs) (self : Value)
    (filter : Option Nat := none)
    (granularity : Value := Value.str "DAYS")
    (session : Option Value := none)
    (lightweight : Bool := false) : Request × Heap :=
  (list_time_ranges self
     (Value.dict (h.get (filter.getD defs.list_time_ranges_filter)))
     granularity session lightweight, h)

/-- Invocation of list_events under the shared-default-object model. -/
def list_events_h (h : Heap) (defs : BettingDefs) (self : Value)
    (filter : Option Nat := none)
    (locale : Option Value := none)
    (session : Option Value := none)
    (lightweight : Bool := false) : Request × Heap :=
  (list_events self
     (Value.dict (h.get (filter.getD defs.list_events_filter)))
     locale session lightweight, h)

/-- Invocation of list_market_types under the shared-default-object model. -/
def list_market_types_h (h : Heap) (defs : BettingDefs) (self : Value)
    (filter : Option Nat := none)
    (locale : Option Value := none)
    (session : Option Value := none)
    (lightweight : Bool := false) : Request × Heap :=
  (list_market_types self
     (Value.dict (h.get (filter.getD defs.list_market_types_filter)))
     locale session lightweight, h)

/-- Invocation of list_countries under the shared-default-object model. -/
def list_countries_h (h : Heap) (defs : BettingDefs) (self : Value)
    (filter : Option Nat := none)
    (locale : Option Value := none)
    (session : Option Value := none)
    (lightweight : Bool := false) : Request × Heap :=
  (list_countries self
     (Value.dict (h.get (filter.getD defs.list_countries_filter)))
     locale session lightweight, h)

/-- Invocation of list_venues under the shared-default-object model. -/
def list_venues_h (h : Heap) (defs : BettingDefs) (self : Value)
    (filter : Option Nat := none)
    (locale : Option Value := none)
    (session : Option Value := none)
    (lightweight : Bool := false) : Request × Heap :=
  (list_venues self
     (Value.dict (h.get (filter.getD defs.list_venues_filter)))
     locale session lightweight, h)

/-- Invocation of list_market_catalogue under the shared-default-object
model. -/
def list_market_catalogue_h (h : Heap) (defs : BettingDefs) (self : Value)
    (filter : Option Nat := none)
    (market_projection : Option Value := none)
    (sort : Option Value := none)
    (max_results : Value := Value.int 1)
    (locale : Option Value := none)
    (session : Option Value := none)
    (lightweight : Bool := false) : Request × Heap :=
  (list_market_catalogue self
     (Value.dict (h.get (filter.getD defs.list_market_catalogue_filter)))
     market_projection sort max_results locale session lightweight, h)

/-- Invocation of list_current_orders under the shared-default-object
model: the defaulted dict parameter is date_range. -/
def list_current_orders_h (h : Heap) (defs : BettingDefs) (self : Value)
    (bet_ids : Option Value := none)
    (market_ids : Option Value := none)
    (order_projection : Option Value := none)
    (customer_order_refs : Option Value := none)
    (customer_strategy_refs : Option Value := none)
    (date_range : Option Nat := none)
    (order_by : Option Value := none)
    (sort_dir : Option Value := none)
    (from_record : Option Value := none)
    (record_count : Option Value := none)
    (include_item_description : Option Value := none)
    (session : Option Value := none)
    (lightweight : Bool := false) : Request × Heap :=
  (list_current_orders self bet_ids market_ids order_projection
     customer_order_refs customer_strategy_refs
     (Value.dict (h.get (date_range.getD defs.list_current_orders_date_range)))
     order_by sort_dir from_record record_count include_item_description
     session lightweight, h)

/-- Invocation of list_cleared_orders under the shared-default-object
model: the defaulted dict parameter is settled_date_range. -/
def list_cleared_orders_h (h : Heap) (defs : BettingDefs) (self : Value)
    (bet_status : Value := Value.str "SETTLED")
    (event_type_ids : Option Value := none)
    (event_ids : Option Value := none)
    (market_ids : Option Value := none)
    (runner_ids : Option Value := none)
    (bet_ids : Option Value := none)
    (customer_order_refs : Option Value := none)
    (customer_strategy_refs : Option Value := none)
    (side : Option Value := none)
    (settled_date_range : Option Nat := none)
    (group_by : Option Value := none)
    (include_item_description : Option Value := none)
    (locale : Option Value := none)
    (from_record : Option Value := none)
    (record_count : Option Value := none)
    (session : Option Value := none)
    (lightweight : Bool := false) : Request × Heap :=
  (list_cleared_orders self bet_status event_type_ids event_ids market_ids
     runner_ids bet_ids customer_order_refs customer_strategy_refs side
     (Value.dict
       (h.get (settled_date_range.getD defs.list_cleared_orders_settled_date_range)))
     group_by include_item_description locale from_record record_count
     session lightweight, h)

/-- Every entry of a clean_locals mapping comes from a parameter that was
set (not None) and is not one of the transport-only parameters, and its
key is the camel-case conversion of that parameter's name. -/
lemma clean_locals_mem :
    ∀ (l : List (String × Option Value)) (k : String) (v : Value),
      (k, v) ∈ clean_locals l →
      ∃ k₀, (k₀, some v) ∈ l ∧ k = to_camel_case k₀ ∧
        k₀ ≠ "self" ∧ k₀ ≠ "session" ∧ k₀ ≠ "lightweight"
  | [], k, v, h => by simp [clean_locals] at h
  | (k₁, v₁) :: rest, k, v, h => by
    by_cases htr : k₁ = "self" ∨ k₁ = "session" ∨ k₁ = "lightweight"
    · rw [show clean_locals ((k₁, v₁) :: rest) = clean_locals rest by
        simp [clean_locals, htr]] at h
      obtain ⟨k₀, h1, h2⟩ := clean_locals_mem rest k v h
      exact ⟨k₀, List.mem_cons_of_mem _ h1, h2⟩
    · cases v₁ with
      | none =>
        rw [show clean_locals ((k₁, none) :: rest) = clean_locals rest by
          simp [clean_locals, htr]] at h
        obtain ⟨k₀, h1, h2⟩ := clean_locals_mem rest k v h
        exact ⟨k₀, List.mem_cons_of_mem _ h1, h2⟩
      | some x =>
        rw [show clean_locals ((k₁, some x) :: rest) =
            (to_camel_case k₁, x) :: clean_locals rest by
          simp [clean_locals, htr]] at h
        push_neg at htr
        rcases List.mem_cons.mp h with heq | hmem
        · obtain ⟨hk, hv⟩ := Prod.mk.injEq .. ▸ heq
          exact ⟨k₁, by rw [hv]; exact List.mem_cons_self _ _, hk,
            htr.1, htr.2.1, htr.2.2⟩
        · obtain ⟨k₀, h1, h2⟩ := clean_locals_mem rest k v hmem
          exact ⟨k₀, List.mem_cons_of_mem _ h1, h2⟩

/-- If no non-transport parameter name of the locals list camel-cases to
either transport field name, then no entry of the built mapping carries a
transport field name. -/
lemma clean_locals_no_transport (l : List (String × Option Value))
    (hl : ∀ k₀ ∈ l.map Prod.fst, k₀ ≠ "self" → k₀ ≠ "session" →
      k₀ ≠ "lightweight" →
      to_camel_case k₀ ≠ "session" ∧ to_camel_case k₀ ≠ "lightweight") :
    ∀ kv ∈ clean_locals l, kv.1 ≠ "session" ∧ kv.1 ≠ "lightweight" := by
  intro kv hkv
  obtain ⟨k₀, h1, h2, h3, h4, h5⟩ :=
    clean_locals_mem l kv.1 kv.2 (by simpa using hkv)
  rw [h2]
  exact hl k₀ (List.mem_map_of_mem Prod.fst h1) h3 h4 h5

/-- Reading an address that was just mutated returns the new dict. -/
lemma Heap.get_set_self (h : Heap) (a : Nat) (d : Dict)
    (ha : a < h.cells.length) :
    (h.set a d).get a = d := by
  simp [Heap.get, Heap.set, List.getD, List.getElem?_set_self', ha]

/-- The dict allocated for the k-th defaulted builder call of the class
body sits unchanged in the heap produced by the class definition. -/
lemma betting_heap_get (h₀ : Heap) (k : Nat) :
    (betting_heap h₀).get (h₀.cells.length + k) = class_defaults.getD k [] := by
  simp only [betting_heap, define_Betting, Heap.get, List.getD,
    List.get?_eq_getElem?]
  rw [List.getElem?_append_right (Nat.le_add_right _ _)]
  simp

/-- Claim C1: for every member of every vocabulary enumeration defined in
the module, the member's wire string value is exactly its declared name
(identity mapping), and within any one vocabulary no two distinct members
have the same wire string value. -/
theorem vocabulary_wire_values_identity (vocab : String)
    (members : List (String × String))
    (h : (vocab, members) ∈ vocabularies) :
    (∀ p ∈ members, p.2 = p.1) ∧ (members.map Prod.snd).Nodup := by
  have key : ∀ vm ∈ vocabularies,
      (∀ p ∈ vm.2, p.2 = p.1) ∧ (vm.2.map Prod.snd).Nodup := by decide
  exact key (vocab, members) h

/-- Witness for C1, instantiated at the Side vocabulary. -/
theorem vocabulary_wire_values_identity_witness :
    ("Side", Side.members) ∈ vocabularies ∧
      ((∀ p ∈ Side.members, p.2 = p.1) ∧ (Side.members.map Prod.snd).Nodup) :=
  ⟨by decide, vocabulary_wire_values_identity "Side" Side.members (by decide)⟩

/-- Claim C2: every operation of the Betting endpoint submits the fixed
namespace prefix SportsAPING/v1.0/ concatenated with its documented remote
method name to the request executor, independent of its parameter values. -/
theorem fully_qualified_method_names :
    URI = "SportsAPING/v1.0/" ∧
    (∀ s f loc sess lw, (list_event_types s f loc sess lw).method =
      "SportsAPING/v1.0/" ++ "listEventTypes") ∧
    (∀ s f loc sess lw, (list_competitions s f loc sess lw).method =
      "SportsAPING/v1.0/" ++ "listCompetitions") ∧
    (∀ s f g sess lw, (list_time_ranges s f g sess lw).method =
      "SportsAPING/v1.0/" ++ "listTimeRanges") ∧
    (∀ s f loc sess lw, (list_events s f loc sess lw).method =
      "SportsAPING/v1.0/" ++ "listEvents") ∧
    (∀ s f loc sess lw, (list_market_types s f loc sess lw).method =
      "SportsAPING/v1.0/" ++ "listMarketTypes") ∧
    (∀ s f loc sess lw, (list_countries s f loc sess lw).method =
      "SportsAPING/v1.0/" ++ "listCountries") ∧
    (∀ s f loc sess lw, (list_venues s f loc sess lw).method =
      "SportsAPING/v1.0/" ++ "listVenues") ∧
    (∀ s f mp srt mr loc sess lw,
      (list_market_catalogue s f mp srt mr loc sess lw).method =
        "SportsAPING/v1.0/" ++ "listMarketCatalogue") ∧
    (∀ s mids pp op mp iop pms csr cc ms bids loc sess lw,
      (list_market_book s mids pp op mp iop pms csr cc ms bids loc
        sess lw).method = "SportsAPING/v1.0/" ++ "listMarketBook") ∧
    (∀ s mid sid hc pp op mp iop pms csr cc ms bids loc sess lw,
      (list_runner_book s mid sid hc pp op mp iop pms csr cc ms bids loc
        sess lw).method = "SportsAPING/v1.0/" ++ "listRunnerBook") ∧
    (∀ s bids mids op cor csr dr ob sd fr rc iid sess lw,
      (list_current_orders s bids mids op cor csr dr ob sd fr rc iid
        sess lw).method = "SportsAPING/v1.0/" ++ "listCurrentOrders") ∧
    (∀ s bs eti ei mids ri bids cor csr sd sdr gb iid loc fr rc sess lw,
      (list_cleared_orders s bs eti ei mids ri bids cor csr sd sdr gb iid
        loc fr rc sess lw).method = "SportsAPING/v1.0/" ++ "listClearedOrders") ∧
    (∀ s mids isb ibb noc sess lw,
      (list_market_profit_and_loss s mids isb ibb noc sess lw).method =
        "SportsAPING/v1.0/" ++ "listMarketProfitAndLoss") ∧
    (∀ s mid ins cr mv csr as sess lw,
      (place_orders s mid ins cr mv csr as sess lw).method =
        "SportsAPING/v1.0/" ++ "placeOrders") ∧
    (∀ s mid ins cr sess lw, (cancel_orders s mid ins cr sess lw).method =
      "SportsAPING/v1.0/" ++ "cancelOrders") ∧
    (∀ s mid ins cr sess lw, (update_orders s mid ins cr sess lw).method =
      "SportsAPING/v1.0/" ++ "updateOrders") ∧
    (∀ s mid ins cr mv as sess lw,
      (replace_orders s mid ins cr mv as sess lw).method =
        "SportsAPING/v1.0/" ++ "replaceOrders") := by
  refine ⟨?_, ?_, ?_, ?_, ?_, ?_, ?_, ?_, ?_, ?_, ?_, ?_, ?_, ?_, ?_, ?_,
    ?_, ?_⟩ <;> intros <;> rfl

/-- Claim C3: a parameter left at its unset (None) default is absent from
the transmitted mapping (every transmitted entry stems from a set,
non-transport parameter; a parameter name that is everywhere unset yields
no entry), the transport-only parameters are never present as wire fields
of any operation, cancel_orders invoked bare transmits an empty mapping,
and list_event_types invoked with an empty filter dict and nothing else
transmits a mapping holding only the filter field. -/
theorem unset_parameters_omitted :
    (∀ (l : List (String × Option Value)) (k : String) (v : Value),
      (k, v) ∈ clean_locals l →
      ∃ k₀, (k₀, some v) ∈ l ∧ k = to_camel_case k₀ ∧
        k₀ ≠ "self" ∧ k₀ ≠ "session" ∧ k₀ ≠ "lightweight") ∧
    (∀ (l : List (String × Option Value)) (c : String),
      (∀ p ∈ l, to_camel_case p.1 = c → p.2 = none) →
      c ∉ (clean_locals l).map Prod.fst) ∧
    (∀ s sess lw, (cancel_orders s none none none sess lw).params = []) ∧
    (∀ s sess lw, (list_event_types s (Value.dict []) none sess lw).params =
      [("filter", Value.dict [])]) ∧
    (∀ s f loc sess lw kv, kv ∈ (list_event_types s f loc sess lw).params →
      kv.1 ≠ "session" ∧ kv.1 ≠ "lightweight") ∧
    (∀ s f loc sess lw kv, kv ∈ (list_competitions s f loc sess lw).params →
      kv.1 ≠ "session" ∧ kv.1 ≠ "lightweight") ∧
    (∀ s f g sess lw kv, kv ∈ (list_time_ranges s f g sess lw).params →
      kv.1 ≠ "session" ∧ kv.1 ≠ "lightweight") ∧
    (∀ s f loc sess lw kv, kv ∈ (list_events s f loc sess lw).params →
      kv.1 ≠ "session" ∧ kv.1 ≠ "lightweight") ∧
    (∀ s f loc sess lw kv, kv ∈ (list_market_types s f loc sess lw).params →
      kv.1 ≠ "session" ∧ kv.1 ≠ "lightweight") ∧
    (∀ s f loc sess lw kv, kv ∈ (list_countries s f loc sess lw).params →
      kv.1 ≠ "session" ∧ kv.1 ≠ "lightweight") ∧
    (∀ s f loc sess lw kv, kv ∈ (list_venues s f loc sess lw).params →
      kv.1 ≠ "session" ∧ kv.1 ≠ "lightweight") ∧
    (∀ s f mp srt mr loc sess lw kv,
      kv ∈ (list_market_catalogue s f mp srt mr loc sess lw).params →
      kv.1 ≠ "session" ∧ kv.1 ≠ "lightweight") ∧
    (∀ s mids pp op mp iop pms csr cc ms bids loc sess lw kv,
      kv ∈ (list_market_book s mids pp op mp iop pms csr cc ms bids loc
        sess lw).params →
      kv.1 ≠ "session" ∧ kv.1 ≠ "lightweight") ∧
    (∀ s mid sid hc pp op mp iop pms csr cc ms bids loc sess lw kv,
      kv ∈ (list_runner_book s mid sid hc pp op mp iop pms csr cc ms bids
        loc sess lw).params →
      kv.1 ≠ "session" ∧ kv.1 ≠ "lightweight") ∧
    (∀ s bids mids op cor csr dr ob sd fr rc iid sess lw kv,
      kv ∈ (list_current_orders s bids mids op cor csr dr ob sd fr rc iid
        sess lw).params →
      kv.1 ≠ "session" ∧ kv.1 ≠ "lightweight") ∧
    (∀ s bs eti ei mids ri bids cor csr sd sdr gb iid loc fr rc sess lw kv,
      kv ∈ (list_cleared_orders s bs eti ei mids ri bids cor csr sd sdr gb
        iid loc fr rc sess lw).params →
      kv.1 ≠ "session" ∧ kv.1 ≠ "lightweight") ∧
    (∀ s mids isb ibb noc sess lw kv,
      kv ∈ (list_market_profit_and_loss s mids isb ibb noc sess lw).params →
      kv.1 ≠ "session" ∧ kv.1 ≠ "lightweight") ∧
    (∀ s mid ins cr mv csr as sess lw kv,
      kv ∈ (place_orders s mid ins cr mv csr as sess lw).params →
      kv.1 ≠ "session" ∧ kv.1 ≠ "lightweight") ∧
    (∀ s mid ins cr sess lw kv,
      kv ∈ (cancel_orders s mid ins cr sess lw).params →
      kv.1 ≠ "session" ∧ kv.1 ≠ "lightweight") ∧
    (∀ s mid ins cr sess lw kv,
      kv ∈ (update_orders s mid ins cr sess lw).params →
      kv.1 ≠ "session" ∧ kv.1 ≠ "lightweight") ∧
    (∀ s mid ins cr mv as sess lw kv,
      kv ∈ (replace_orders s mid ins cr mv as sess lw).params →
      kv.1 ≠ "session" ∧ kv.1 ≠ "lightweight") := by
  refine ⟨clean_locals_mem, ?_, ?_, ?_, ?_, ?_, ?_, ?_, ?_, ?_, ?_, ?_, ?_,
    ?_, ?_, ?_, ?_, ?_, ?_, ?_, ?_⟩
  · intro l c hnone hc
    obtain ⟨⟨k, v⟩, hmem, rfl⟩ := List.mem_map.mp hc
    obtain ⟨k₀, h1, h2, h3⟩ := clean_locals_mem l k v hmem
    have := hnone (k₀, some v) h1 h2.symm
    simp at this
  · intro s sess lw
    rfl
  · intro s sess lw
    rfl
  all_goals
    intros
    rename_i kv hkv
    refine clean_locals_no_transport _ ?_ kv hkv
    intro k₀ hk₀
    simp only [List.map_cons, List.map_nil] at hk₀
    fin_cases hk₀ <;> decide

/-- Witness for C3: a parameter left unset (locale) is absent from the
mapping built from a locals list that sets only the filter. -/
theorem unset_parameters_omitted_witness :
    "locale" ∉ (clean_locals
      [("filter", some (Value.dict [])), ("locale", none)]).map Prod.fst :=
  unset_parameters_omitted.2.1 _ "locale" (by
    intro p hp
    simp only [List.mem_cons, List.not_mem_nil, or_false] at hp
    rcases hp with rfl | rfl
    · intro h
      exact absurd h (by decide)
    · intro _
      rfl)

/-- Claim C4: when the caller supplies no explicit value,
list_market_catalogue transmits a maxResults of 1, list_cleared_orders
transmits a betStatus of SETTLED, and list_time_ranges transmits a
granularity of DAYS: the documented defaults are present in the
transmitted mapping rather than omitted. -/
theorem documented_defaults_transmitted (s f : Value) :
    (list_market_catalogue s f).params.lookup "maxResults" =
      some (Value.int 1) ∧
    (list_cleared_orders s).params.lookup "betStatus" =
      some (Value.str "SETTLED") ∧
    (list_time_ranges s f).params.lookup "granularity" =
      some (Value.str "DAYS") :=
  ⟨rfl, rfl, rfl⟩

/-- Claim C5: with the raw-output selector set, the response processor
returns the parsed JSON unmodified, and so does every operation dispatched
through the shared wrapper body; with the selector unset it returns typed
instances whose count matches the cardinality of the JSON (one instance
for a JSON object, N instances for an array of length N), each carrying
the call's elapsed time and the operation's expected result class. -/
theorem response_shape (j : Json) (rt : ResourceType) (t : Nat) :
    process_response j rt t true = Processed.raw j ∧
    (∀ xs, j = Json.arr xs →
      ∃ rs, process_response j rt t false = Processed.many rs ∧
        rs.length = xs.length ∧
        ∀ r ∈ rs, r.elapsed = t ∧ r.resource = rt) ∧
    (∀ fs, j = Json.obj fs →
      ∃ r, process_response j rt t false = Processed.one r ∧
        r.elapsed = t ∧ r.resource = rt) ∧
    (∀ (req : Request) (elapsed : Nat), req.lightweight = true →
      run_op req (fun _ _ => Except.ok (j, elapsed))
        (fun a b c d => Except.ok (process_response a b c d)) =
        Except.ok (Processed.raw j)) := by
  refine ⟨rfl, ?_, ?_, ?_⟩
  · rintro xs rfl
    refine ⟨_, rfl, by simp, ?_⟩
    intro r hr
    obtain ⟨x, hx, rfl⟩ := List.mem_map.mp hr
    exact ⟨rfl, rfl⟩
  · rintro fs rfl
    exact ⟨_, rfl, rfl, rfl⟩
  · intro req elapsed hlw
    simp [run_op, process_response, hlw]

/-- Witness for C5 at a two-element JSON array. -/
theorem response_shape_witness :
    ∃ rs, process_response (Json.arr [Json.null, Json.bool true])
        ResourceType.EventTypeResult 7 false = Processed.many rs ∧
      rs.length = [Json.null, Json.bool true].length ∧
      ∀ r ∈ rs, r.elapsed = 7 ∧ r.resource = ResourceType.EventTypeResult :=
  (response_shape (Json.arr [Json.null, Json.bool true])
    ResourceType.EventTypeResult 7).2.1 [Json.null, Json.bool true] rfl

/-- Claim C6: the keys of the transmitted mapping are the remote API's
camel-case field names even where the caller-facing parameter names
differ; in particular list_market_book transmits the market identifier
list under marketIds and never under the snake-case local name. -/
theorem camel_case_field_names :
    (∀ s f loc sess lw,
      (list_event_types s f (some loc) sess lw).params.map Prod.fst =
        ["filter", "locale"]) ∧
    (∀ s f loc sess lw,
      (list_competitions s f (some loc) sess lw).params.map Prod.fst =
        ["filter", "locale"]) ∧
    (∀ s f g sess lw,
      (list_time_ranges s f g sess lw).params.map Prod.fst =
        ["filter", "granularity"]) ∧
    (∀ s f loc sess lw,
      (list_events s f (some loc) sess lw).params.map Prod.fst =
        ["filter", "locale"]) ∧
    (∀ s f loc sess lw,
      (list_market_types s f (some loc) sess lw).params.map Prod.fst =
        ["filter", "locale"]) ∧
    (∀ s f loc sess lw,
      (list_countries s f (some loc) sess lw).params.map Prod.fst =
        ["filter", "locale"]) ∧
    (∀ s f loc sess lw,
      (list_venues s f (some loc) sess lw).params.map Prod.fst =
        ["filter", "locale"]) ∧
    (∀ s f mp srt mr loc sess lw,
      (list_market_catalogue s f (some mp) (some srt) mr (some loc) sess
        lw).params.map Prod.fst =
        ["filter", "marketProjection", "sort", "maxResults", "locale"]) ∧
    (∀ s mids pp op mp iop pms csr cc ms bids loc sess lw,
      (list_market_book s mids (some pp) (some op) (some mp) (some iop)
        (some pms) (some csr) (some cc) (some ms) (some bids) (some loc)
        sess lw).params.map Prod.fst =
        ["marketIds", "priceProjection", "orderProjection",
         "matchProjection", "includeOverallPosition",
         "partitionMatchedByStrategyRef", "customerStrategyRefs",
         "currencyCode", "matchedSince", "betIds", "locale"]) ∧
    (∀ s mid sid hc pp op mp iop pms csr cc ms bids loc sess lw,
      (list_runner_book s mid sid (some hc) (some pp) (some op) (some mp)
        (some iop) (some pms) (some csr) (some cc) (some ms) (some bids)
        (some loc) sess lw).params.map Prod.fst =
        ["marketId", "selectionId", "handicap", "priceProjection",
         "orderProjection", "matchProjection", "includeOverallPosition",
         "partitionMatchedByStrategyRef", "customerStrategyRefs",
         "currencyCode", "matchedSince", "betIds", "locale"]) ∧
    (∀ s bids mids op cor csr dr ob sd fr rc iid sess lw,
      (list_current_orders s (some bids) (some mids) (some op) (some cor)
        (some csr) dr (some ob) (some sd) (some fr) (some rc) (some iid)
        sess lw).params.map Prod.fst =
        ["betIds", "marketIds", "orderProjection", "customerOrderRefs",
         "customerStrategyRefs", "dateRange", "orderBy", "sortDir",
         "fromRecord", "recordCount", "includeItemDescription"]) ∧
    (∀ s bs eti ei mids ri bids cor csr sd sdr gb iid loc fr rc sess lw,
      (list_cleared_orders s bs (some eti) (some ei) (some mids) (some ri)
        (some bids) (some cor) (some csr) (some sd) sdr (some gb)
        (some iid) (some loc) (some fr) (some rc) sess
        lw).params.map Prod.fst =
        ["betStatus", "eventTypeIds", "eventIds", "marketIds", "runnerIds",
         "betIds", "customerOrderRefs", "customerStrategyRefs", "side",
         "settledDateRange", "groupBy", "includeItemDescription", "locale",
         "fromRecord", "recordCount"]) ∧
    (∀ s mids isb ibb noc sess lw,
      (list_market_profit_and_loss s mids (some isb) (some ibb) (some noc)
        sess lw).params.map Prod.fst =
        ["marketIds", "includeSettledBets", "includeBspBets",
         "netOfCommission"]) ∧
    (∀ s mid ins cr mv csr as sess lw,
      (place_orders s mid ins (some cr) (some mv) (some csr) (some as)
        sess lw).params.map Prod.fst =
        ["marketId", "instructions", "customerRef", "marketVersion",
         "customerStrategyRef", "async"]) ∧
    (∀ s mid ins cr sess lw,
      (cancel_orders s (some mid) (some ins) (some cr) sess
        lw).params.map Prod.fst =
        ["marketId", "instructions", "customerRef"]) ∧
    (∀ s mid ins cr sess lw,
      (update_orders s (some mid) (some ins) (some cr) sess
        lw).params.map Prod.fst =
        ["marketId", "instructions", "customerRef"]) ∧
    (∀ s mid ins cr mv as sess lw,
      (replace_orders s mid ins (some cr) (some mv) (some as) sess
        lw).params.map Prod.fst =
        ["marketId", "instructions", "customerRef", "marketVersion",
         "async"]) ∧
    (∀ s mids pp op mp iop pms csr cc ms bids loc sess lw,
      "market_ids" ∉ (list_market_book s mids (some pp) (some op) (some mp)
        (some iop) (some pms) (some csr) (some cc) (some ms) (some bids)
        (some loc) sess lw).params.map Prod.fst) := by
  refine ⟨?_, ?_, ?_, ?_, ?_, ?_, ?_, ?_, ?_, ?_, ?_, ?_, ?_, ?_, ?_, ?_,
    ?_, ?_⟩
  all_goals intros
  all_goals try rfl
  show "market_ids" ∉ ["marketIds", "priceProjection", "orderProjection",
    "matchProjection", "includeOverallPosition",
    "partitionMatchedByStrategyRef", "customerStrategyRefs", "currencyCode",
    "matchedSince", "betIds", "locale"]
  decide

/-- Witness for C6: the snake-case name market_ids is not a transmitted
key of a concrete fully-supplied list_market_book call. -/
theorem camel_case_field_names_witness :
    "market_ids" ∉ (list_market_book Value.null (Value.list [])
      (some Value.null) (some Value.null) (some Value.null) (some Value.null)
      (some Value.null) (some Value.null) (some Value.null) (some Value.null)
      (some Value.null) (some Value.null) none false).params.map Prod.fst :=
  camel_case_field_names.2.2.2.2.2.2.2.2.2.2.2.2.2.2.2.2.2 Value.null
    (Value.list []) Value.null Value.null Value.null Value.null Value.null
    Value.null Value.null Value.null Value.null Value.null none false

/-- Claim C7: the wrapper body raises, catches, transforms and retries
nothing: an executor failure is the operation's outcome unchanged, a
processor failure is the operation's outcome unchanged, and the outcome is
fully determined by the executor's single answer for the submitted method
name and parameter mapping — the executor is consulted exactly once, so a
failed call fails exactly once. -/
theorem errors_propagate_unchanged (req : Request)
    (request : String → List (String × Value) → Except String (Json × Nat))
    (process : Json → ResourceType → Nat → Bool → Except String Processed) :
    (∀ e, request req.method req.params = Except.error e →
      run_op req request process = Except.error e) ∧
    (∀ j t e, request req.method req.params = Except.ok (j, t) →
      process j req.resource t req.lightweight = Except.error e →
      run_op req request process = Except.error e) ∧
    (∀ request',
      request req.method req.params = request' req.method req.params →
      run_op req request process = run_op req request' process) := by
  refine ⟨?_, ?_, ?_⟩
  · intro e he
    simp [run_op, he]
  · intro j t e h1 h2
    simp [run_op, h1, h2]
  · intro request' hagree
    unfold run_op
    rw [hagree]

/-- Witness for C7: a concrete executor failure propagates unchanged
through a concrete operation. -/
theorem errors_propagate_unchanged_witness :
    run_op (cancel_orders Value.null)
      (fun _ _ => Except.error "connection error")
      (fun a b c d => Except.ok (process_response a b c d)) =
      Except.error "connection error" :=
  (errors_propagate_unchanged (cancel_orders Value.null) _ _).1
    "connection error" rfl

/-- Claim C8 as stated is refuted: the Betting class does not expose
thirteen operations (it exposes seventeen). -/
theorem betting_operations_not_thirteen :
    ¬ betting_operations.length = 13 := by decide

/-- Claim C8 amended: the component exposes exactly seventeen independent
operations, and no invocation mutates any shared state: every heap-model
invocation returns the store of shared dict objects unchanged (the
vocabularies and per-call request values are immutable by construction). -/
theorem betting_operations_count_and_stateless :
    betting_operations.length = 17 ∧
    (∀ h defs s f loc sess lw,
      (list_event_types_h h defs s f loc sess lw).2 = h) ∧
    (∀ h defs s f loc sess lw,
      (list_competitions_h h defs s f loc sess lw).2 = h) ∧
    (∀ h defs s f g sess lw,
      (list_time_ranges_h h defs s f g sess lw).2 = h) ∧
    (∀ h defs s f loc sess lw,
      (list_events_h h defs s f loc sess lw).2 = h) ∧
    (∀ h defs s f loc sess lw,
      (list_market_types_h h defs s f loc sess lw).2 = h) ∧
    (∀ h defs s f loc sess lw,
      (list_countries_h h defs s f loc sess lw).2 = h) ∧
    (∀ h defs s f loc sess lw,
      (list_venues_h h defs s f loc sess lw).2 = h) ∧
    (∀ h defs s f mp srt mr loc sess lw,
      (list_market_catalogue_h h defs s f mp srt mr loc sess lw).2 = h) ∧
    (∀ h defs s bids mids op cor csr dr ob sd fr rc iid sess lw,
      (list_current_orders_h h defs s bids mids op cor csr dr ob sd fr rc
        iid sess lw).2 = h) ∧
    (∀ h defs s bs eti ei mids ri bids cor csr sd sdr gb iid loc fr rc
        sess lw,
      (list_cleared_orders_h h defs s bs eti ei mids ri bids cor csr sd
        sdr gb iid loc fr rc sess lw).2 = h) := by
  refine ⟨?_, ?_, ?_, ?_, ?_, ?_, ?_, ?_, ?_, ?_, ?_⟩ <;> intros <;> rfl

/-- Claim C9: list_runner_book passes MarketBook — the same expected
result class used by list_market_book — to the response processor, so in
typed (non-lightweight) mode its result instances carry the MarketBook
result class rather than any runner-specific one. -/
theorem runner_book_expects_market_book (s mid sid mids : Value) :
    (list_runner_book s mid sid).resource = ResourceType.MarketBook ∧
    (list_runner_book s mid sid).resource =
      (list_market_book s mids).resource ∧
    (∀ j t rs, process_response j ResourceType.MarketBook t false =
      Processed.many rs → ∀ r ∈ rs, r.resource = ResourceType.MarketBook) ∧
    (∀ j t r, process_response j ResourceType.MarketBook t false =
      Processed.one r → r.resource = ResourceType.MarketBook) := by
  refine ⟨rfl, rfl, ?_, ?_⟩
  · intro j t rs hmany r hr
    cases j <;> simp [process_response] at hmany
    subst hmany
    obtain ⟨x, hx, rfl⟩ := List.mem_map.mp hr
    rfl
  · intro j t r hone
    cases j <;> simp [process_response] at hone <;> subst hone <;> rfl

/-- Witness for C9: the typed instance built from a concrete JSON object
carries the MarketBook result class. -/
theorem runner_book_expects_market_book_witness :
    ({ resource := ResourceType.MarketBook, data := Json.null,
       elapsed := 3 } : Resource).resource = ResourceType.MarketBook :=
  (runner_book_expects_market_book Value.null Value.null Value.null
    Value.null).2.2.2 Json.null 3 _ rfl

/-- A lookup that returns the dict read back from a just-mutated address
returns the dict that was written. -/
lemma lookup_dict_set (g : Heap) (a : Nat) (d : Dict)
    (ha : a < g.cells.length) (l : List (String × Value)) (fld : String)
    (hl : l.lookup fld = some (Value.dict ((g.set a d).get a))) :
    l.lookup fld = some (Value.dict d) := by
  rw [hl, Heap.get_set_self g a d ha]

/-- Claim C10: the defaults for filter (every listing operation),
date_range (list_current_orders) and settled_date_range
(list_cleared_orders) are produced by one market_filter() / time_range()
builder call each at class-definition time, not at call time.  For each of
the ten defaulted parameters, the triple of conjuncts states: the class
body stores the builder's dict at the parameter's fixed address; every
invocation that omits the parameter transmits the dict read from that same
single address; and after the shared dict is mutated, a subsequent
invocation that omits the parameter transmits the mutated dict. -/
theorem shared_default_objects (h₀ g : Heap) (s : Value) (d : Dict) :
    ((betting_heap h₀).get ((betting_defs h₀).list_event_types_filter) =
        market_filter () ∧
      ((list_event_types_h g (betting_defs h₀) s).1).params.lookup
          "filter" =
        some (Value.dict
          (g.get ((betting_defs h₀).list_event_types_filter))) ∧
      ((betting_defs h₀).list_event_types_filter < g.cells.length →
        ((list_event_types_h
            (g.set ((betting_defs h₀).list_event_types_filter) d)
            (betting_defs h₀) s).1).params.lookup "filter" =
          some (Value.dict d))) ∧
    ((betting_heap h₀).get ((betting_defs h₀).list_competitions_filter) =
        market_filter () ∧
      ((list_competitions_h g (betting_defs h₀) s).1).params.lookup
          "filter" =
        some (Value.dict
          (g.get ((betting_defs h₀).list_competitions_filter))) ∧
      ((betting_defs h₀).list_competitions_filter < g.cells.length →
        ((list_competitions_h
            (g.set ((betting_defs h₀).list_competitions_filter) d)
            (betting_defs h₀) s).1).params.lookup "filter" =
          some (Value.dict d))) ∧
    ((betting_heap h₀).get ((betting_defs h₀).list_time_ranges_filter) =
        market_filter () ∧
      ((list_time_ranges_h g (betting_defs h₀) s).1).params.lookup
          "filter" =
        some (Value.dict
          (g.get ((betting_defs h₀).list_time_ranges_filter))) ∧
      ((betting_defs h₀).list_time_ranges_filter < g.cells.length →
        ((list_time_ranges_h
            (g.set ((betting_defs h₀).list_time_ranges_filter) d)
            (betting_defs h₀) s).1).params.lookup "filter" =
          some (Value.dict d))) ∧
    ((betting_heap h₀).get ((betting_defs h₀).list_events_filter) =
        market_filter () ∧
      ((list_events_h g (betting_defs h₀) s).1).params.lookup "filter" =
        some (Value.dict (g.get ((betting_defs h₀).list_events_filter))) ∧
      ((betting_defs h₀).list_events_filter < g.cells.length →
        ((list_events_h (g.set ((betting_defs h₀).list_events_filter) d)
            (betting_defs h₀) s).1).params.lookup "filter" =
          some (Value.dict d))) ∧
    ((betting_heap h₀).get ((betting_defs h₀).list_market_types_filter) =
        market_filter () ∧
      ((list_market_types_h g (betting_defs h₀) s).1).params.lookup
          "filter" =
        some (Value.dict
          (g.get ((betting_defs h₀).list_market_types_filter))) ∧
      ((betting_defs h₀).list_market_types_filter < g.cells.length →
        ((list_market_types_h
            (g.set ((betting_defs h₀).list_market_types_filter) d)
            (betting_defs h₀) s).1).params.lookup "filter" =
          some (Value.dict d))) ∧
    ((betting_heap h₀).get ((betting_defs h₀).list_countries_filter) =
        market_filter () ∧
      ((list_countries_h g (betting_defs h₀) s).1).params.lookup "filter" =
        some (Value.dict
          (g.get ((betting_defs h₀).list_countries_filter))) ∧
      ((betting_defs h₀).list_countries_filter < g.cells.length →
        ((list_countries_h
            (g.set ((betting_defs h₀).list_countries_filter) d)
            (betting_defs h₀) s).1).params.lookup "filter" =
          some (Value.dict d))) ∧
    ((betting_heap h₀).get ((betting_defs h₀).list_venues_filter) =
        market_filter () ∧
      ((list_venues_h g (betting_defs h₀) s).1).params.lookup "filter" =
        some (Value.dict (g.get ((betting_defs h₀).list_venues_filter))) ∧
      ((betting_defs h₀).list_venues_filter < g.cells.length →
        ((list_venues_h (g.set ((betting_defs h₀).list_venues_filter) d)
            (betting_defs h₀) s).1).params.lookup "filter" =
          some (Value.dict d))) ∧
    ((betting_heap h₀).get
        ((betting_defs h₀).list_market_catalogue_filter) =
        market_filter () ∧
      ((list_market_catalogue_h g (betting_defs h₀) s).1).params.lookup
          "filter" =
        some (Value.dict
          (g.get ((betting_defs h₀).list_market_catalogue_filter))) ∧
      ((betting_defs h₀).list_market_catalogue_filter < g.cells.length →
        ((list_market_catalogue_h
            (g.set ((betting_defs h₀).list_market_catalogue_filter) d)
            (betting_defs h₀) s).1).params.lookup "filter" =
          some (Value.dict d))) ∧
    ((betting_heap h₀).get
        ((betting_defs h₀).list_current_orders_date_range) =
        time_range () ∧
      ((list_current_orders_h g (betting_defs h₀) s).1).params.lookup
          "dateRange" =
        some (Value.dict
          (g.get ((betting_defs h₀).list_current_orders_date_range))) ∧
      ((betting_defs h₀).list_current_orders_date_range < g.cells.length →
        ((list_current_orders_h
            (g.set ((betting_defs h₀).list_current_orders_date_range) d)
            (betting_defs h₀) s).1).params.lookup "dateRange" =
          some (Value.dict d))) ∧
    ((betting_heap h₀).get
        ((betting_defs h₀).list_cleared_orders_settled_date_range) =
        time_range () ∧
      ((list_cleared_orders_h g (betting_defs h₀) s).1).params.lookup
          "settledDateRange" =
        some (Value.dict
          (g.get
            ((betting_defs h₀).list_cleared_orders_settled_date_range))) ∧
      ((betting_defs h₀).list_cleared_orders_settled_date_range <
          g.cells.length →
        ((list_cleared_orders_h
            (g.set
              ((betting_defs h₀).list_cleared_orders_settled_date_range) d)
            (betting_defs h₀) s).1).params.lookup "settledDateRange" =
          some (Value.dict d))) := by
  refine ⟨⟨?_, ?_, ?_⟩, ⟨?_, ?_, ?_⟩, ⟨?_, ?_, ?_⟩, ⟨?_, ?_, ?_⟩,
    ⟨?_, ?_, ?_⟩, ⟨?_, ?_, ?_⟩, ⟨?_, ?_, ?_⟩, ⟨?_, ?_, ?_⟩, ⟨?_, ?_, ?_⟩,
    ⟨?_, ?_, ?_⟩⟩
  · exact betting_heap_get h₀ 0
  · rfl
  · intro hlt
    exact lookup_dict_set g _ d hlt _ _ rfl
  · exact betting_heap_get h₀ 1
  · rfl
  · intro hlt
    exact lookup_dict_set g _ d hlt _ _ rfl
  · exact betting_heap_get h₀ 2
  · rfl
  · intro hlt
    exact lookup_dict_set g _ d hlt _ _ rfl
  · exact betting_heap_get h₀ 3
  · rfl
  · intro hlt
    exact lookup_dict_set g _ d hlt _ _ rfl
  · exact betting_heap_get h₀ 4
  · rfl
  · intro hlt
    exact lookup_dict_set g _ d hlt _ _ rfl
  · exact betting_heap_get h₀ 5
  · rfl
  · intro hlt
    exact lookup_dict_set g _ d hlt _ _ rfl
  · exact betting_heap_get h₀ 6
  · rfl
  · intro hlt
    exact lookup_dict_set g _ d hlt _ _ rfl
  · exact betting_heap_get h₀ 7
  · rfl
  · intro hlt
    exact lookup_dict_set g _ d hlt _ _ rfl
  · exact betting_heap_get h₀ 8
  · rfl
  · intro hlt
    exact lookup_dict_set g _ d hlt _ _ rfl
  · exact betting_heap_get h₀ 9
  · rfl
  · intro hlt
    exact lookup_dict_set g _ d hlt _ _ rfl

/-- Witness for C10: starting from the empty heap, mutating the shared
default filter dict of list_event_types and then invoking the operation
with the filter omitted transmits the mutated dict. -/
theorem shared_default_objects_witness :
    ((list_event_types_h
        ((betting_heap ⟨[]⟩).set
          ((betting_defs ⟨[]⟩).list_event_types_filter)
          [("textQuery", Value.str "tennis")])
        (betting_defs ⟨[]⟩) Value.null).1).params.lookup "filter" =
      some (Value.dict [("textQuery", Value.str "tennis")]) :=
  (shared_default_objects ⟨[]⟩ (betting_heap ⟨[]⟩) Value.null
    [("textQuery", Value.str "tennis")]).1.2.2 (by decide)
